import Mathlib

/-!
Verification of the CLIMADA backend HTTP wrapper (climada_backend.py).

Modelling conventions:
* a Python float that can be NaN is `Option ℚ` with `none` standing for NaN;
* JSON values produced by jsonify are the inductive `Json` below, where
  `Json.num none` is a float NaN;
* calls into the CLIMADA library are oracle parameters of type `Except String _`
  so that a raised exception (carrying its string) can be modelled;
* the module-level dict `cache` is a function `String → Option Json`.
-/

namespace Climada

/-- JSON values as produced by flask jsonify; `num none` models a float NaN. -/
inductive Json where
  | null : Json
  | str : String → Json
  | int : Int → Json
  | num : Option ℚ → Json
  | arr : List Json → Json
  | obj : List (String × Json) → Json

/-- Lookup of a field inside an association list of JSON object fields. -/
def assocFind : List (String × Json) → String → Option Json
  | [], _ => none
  | (k2, v) :: rest, k => if k2 = k then some v else assocFind rest k

/-- Field access on a JSON object; `none` on non-objects and missing keys. -/
def Json.getField : Json → String → Option Json
  | .obj fs, k => assocFind fs k
  | _, _ => none

/-- Nested field access on JSON objects. -/
def Json.getPath : Json → List String → Option Json
  | j, [] => some j
  | j, k :: ks =>
    match j.getField k with
    | some v => v.getPath ks
    | none => none

/-- A CLIMADA track as accessed by the backend: parallel per-point arrays,
where `none` models a NaN entry, and `max_sustained_wind = none` models the
attribute being absent from the track object (the hasattr check, line 91). -/
structure Track where
  lat : List (Option ℚ)
  lon : List (Option ℚ)
  max_sustained_wind : Option (List (Option ℚ))
  name : Option String
  sid : String
  season : Option Int
deriving Repr, DecidableEq

/-- Saffir-Simpson category from max sustained wind in knots, translated
from the if/elif chain at climada_backend.py lines 93-104. -/
def saffirCat (w : ℚ) : Nat :=
  if 137 ≤ w then 5
  else if 113 ≤ w then 4
  else if 96 ≤ w then 3
  else if 83 ≤ w then 2
  else if 64 ≤ w then 1
  else 0

/-- Category assigned to point `i` of a track (lines 91-107): 0 when the
track has no max_sustained_wind attribute or the value at `i` is NaN,
otherwise the Saffir-Simpson category of the wind value. -/
def pointCat (mws : Option (List (Option ℚ))) (i : Nat) : Nat :=
  match mws with
  | none => 0
  | some ws =>
    match ws[i]? with
    | some (some w) => saffirCat w
    | _ => 0

/-- Coordinates collected by the loop at lines 86-88: for each index of the
lat array where both lat and lon are non-NaN, the pair [lon, lat]. -/
def validCoords (t : Track) : List (ℚ × ℚ) :=
  (List.range t.lat.length).filterMap fun i =>
    match t.lat[i]?, t.lon[i]? with
    | some (some la), some (some lo) => some (lo, la)
    | _, _ => none

/-- Per-point categories collected by the same loop (lines 90-107): one
entry per valid coordinate. -/
def trackCats (t : Track) : List Nat :=
  (List.range t.lat.length).filterMap fun i =>
    match t.lat[i]?, t.lon[i]? with
    | some (some _), some (some _) => some (pointCat t.max_sustained_wind i)
    | _, _ => none

/-- Model of np.nanmax over a float array: max of the non-NaN entries,
NaN when all entries are NaN (line 118). -/
def nanmax (ws : List (Option ℚ)) : Option ℚ :=
  match ws.filterMap id with
  | [] => none
  | x :: xs => some (xs.foldl max x)

/-- Python max of a list of naturals, 0 on the empty list (line 117). -/
def listMax (l : List Nat) : Nat := l.foldr max 0

/-- GeoJSON geometry object shared by both track endpoints (lines 120-123
and 210-213). -/
def geomJson (t : Track) : Json :=
  Json.obj [
    ("type", Json.str "LineString"),
    ("coordinates", Json.arr ((validCoords t).map fun p =>
      Json.arr [Json.num (some p.1), Json.num (some p.2)]))]

/-- One historical-track GeoJSON feature (lines 110-124). -/
def trackFeature (basin : String) (year_min : Int) (t : Track) : Json :=
  Json.obj [
    ("type", Json.str "Feature"),
    ("properties", Json.obj [
      ("name", Json.str (t.name.getD ("Storm_" ++ t.sid))),
      ("sid", Json.str t.sid),
      ("season", Json.int (t.season.getD year_min)),
      ("basin", Json.str basin),
      ("category", Json.int (listMax (trackCats t))),
      ("max_wind", match t.max_sustained_wind with
        | some ws => Json.num (nanmax ws)
        | none => Json.int 0)]),
    ("geometry", geomJson t)]

/-- The feature list built by the loop at lines 76-124: a track is skipped
when its raw lat array has fewer than 3 entries (line 79) and included only
when at least 3 valid coordinates remain (line 109). -/
def historicalFeatures (basin : String) (year_min : Int) (tracks : List Track) : List Json :=
  tracks.filterMap fun t =>
    if t.lat.length < 3 then none
    else if 3 ≤ (validCoords t).length then some (trackFeature basin year_min t)
    else none

/-- The FeatureCollection stored in the cache and returned (lines 126-134). -/
def historicalResponse (basin : String) (year_min year_max : Int) (tracks : List Track) : Json :=
  Json.obj [
    ("type", Json.str "FeatureCollection"),
    ("features", Json.arr (historicalFeatures basin year_min tracks)),
    ("properties", Json.obj [
      ("basin", Json.str basin),
      ("year_range", Json.arr [Json.int year_min, Json.int year_max]),
      ("count", Json.int (historicalFeatures basin year_min tracks).length)])]

/-- Numeric value of a decimal digit character. -/
def digitVal (c : Char) : Nat := c.toNat - 48

/-- Little-endian base-10 digits with explicit fuel, so that the function
is structurally recursive and reduces inside the kernel. -/
def digitsAux : Nat → Nat → List Nat
  | 0, _ => []
  | fuel + 1, n => if n = 0 then [] else n % 10 :: digitsAux fuel (n / 10)

/-- Little-endian base-10 digits of a natural number. -/
def natDigits (n : Nat) : List Nat := digitsAux n n

/-- Decimal digit string of a natural number, the model of Python str on
naturals: most significant digit first, and "0" for zero. -/
def natStr (n : Nat) : List Char :=
  if n = 0 then ['0'] else ((natDigits n).reverse.map Nat.digitChar)

/-- Decimal string of an integer, the model of Python str on int. -/
def intStr (i : Int) : List Char :=
  if i < 0 then '-' :: natStr i.natAbs else natStr i.natAbs

/-- Cache key built by the f-string at line 63:
tracks_{basin}_{year_min}_{year_max}. -/
def cacheKey (basin : String) (year_min year_max : Int) : String :=
  String.mk ("tracks_".data ++ basin.data ++ ('_' :: intStr year_min) ++ ('_' :: intStr year_max))

/-- The module-level dict `cache` (line 34), as a partial map from keys to
stored responses. -/
def Cache : Type := String → Option Json

/-- Dict update cache[k] = v. -/
def Cache.insert (c : Cache) (k : String) (v : Json) : Cache :=
  fun k2 => if k2 = k then some v else c k2

/-- The empty dict the module starts with (line 34). -/
def Cache.empty : Cache := fun _ => none

/-- The uniform except-branch of every endpoint: jsonify a single-field
error object with HTTP status 500. -/
def errResp (e : String) : Json × Nat :=
  (Json.obj [("error", Json.str e)], 500)

/-- Body of the historical-tracks endpoint after query parsing
(lines 63-136): consult the cache, otherwise call the library (which may
raise), build the FeatureCollection, store it, and return the stored entry
with status 200. -/
def getHistoricalTracks (cache : Cache) (basin : String) (year_min year_max : Int)
    (lib : Except String (List Track)) : (Json × Nat) × Cache :=
  let key := cacheKey basin year_min year_max
  match cache key with
  | some resp => ((resp, 200), cache)
  | none =>
    match lib with
    | .error e => (errResp e, cache)
    | .ok tracks =>
      let resp := historicalResponse basin year_min year_max tracks
      ((resp, 200), cache.insert key resp)

/-- Value of a nonempty all-digit character list, most significant first;
`none` when empty or when any character is not a decimal digit. -/
def parseNatDigits (cs : List Char) : Option Nat :=
  match cs with
  | [] => none
  | _ =>
    if cs.all Char.isDigit then some (cs.foldl (fun acc c => acc * 10 + digitVal c) 0)
    else none

/-- Model of Python int() applied to a query-string value: an optional
leading minus sign followed by decimal digits, or raise ValueError (whose
message mentions the literal). -/
def parseIntArg (s : String) : Except String Int :=
  match s.data with
  | '-' :: rest =>
    match parseNatDigits rest with
    | some n => Except.ok (-(n : Int))
    | none => Except.error ("invalid literal for int() with base 10: " ++ s)
  | cs =>
    match parseNatDigits cs with
    | some n => Except.ok (n : Int)
    | none => Except.error ("invalid literal for int() with base 10: " ++ s)

/-- The full historical-tracks route (lines 49-140): defaulted query
parameters, int parsing of the year bounds (either of which may raise),
then the cached body; any exception becomes the uniform 500 error payload. -/
def historicalRoute (cache : Cache) (basinArg ymArg yMArg : Option String)
    (lib : Except String (List Track)) : (Json × Nat) × Cache :=
  let basin := basinArg.getD "NA"
  match (ymArg.map parseIntArg).getD (Except.ok 2010),
        (yMArg.map parseIntArg).getD (Except.ok 2020) with
  | Except.error e, _ => (errResp e, cache)
  | Except.ok _, Except.error e => (errResp e, cache)
  | Except.ok ym, Except.ok yM => getHistoricalTracks cache basin ym yM lib

/-- Frequency and intensity change factors per scenario (lines 171-184);
`none` for the historical scenario, where the branch is not entered.
The factors are computed and logged but never applied to the tracks. -/
def scenarioFactors (scenario : String) : Option (ℚ × ℚ) :=
  if scenario = "historical" then none
  else if scenario = "rcp26" then some (11/10, 21/20)
  else if scenario = "rcp45" then some (6/5, 11/10)
  else if scenario = "rcp85" then some (7/5, 23/20)
  else some (1, 1)

/-- One synthetic-track GeoJSON feature (lines 203-214); `i` is the
enumerate index within the displayed sample. -/
def synthFeature (scenario : String) (i : Nat) (t : Track) : Json :=
  Json.obj [
    ("type", Json.str "Feature"),
    ("properties", Json.obj [
      ("name", Json.str ("Synthetic_" ++ toString i)),
      ("type", Json.str "synthetic"),
      ("scenario", Json.str scenario)]),
    ("geometry", geomJson t)]

/-- The synthetic feature list (lines 190-214): only the first
min(50, number of tracks) tracks are considered, tracks with fewer than 3
raw points are skipped, and only tracks with at least 3 valid coordinates
are emitted. -/
def syntheticFeatures (scenario : String) (tracks : List Track) : List Json :=
  ((tracks.take (min 50 tracks.length)).enum).filterMap fun p =>
    if p.2.lat.length < 3 then none
    else if 3 ≤ (validCoords p.2).length then some (synthFeature scenario p.1 p.2)
    else none

/-- The synthetic-tracks response body (lines 216-224). -/
def syntheticResponse (scenario : String) (tracks : List Track) : Json :=
  Json.obj [
    ("type", Json.str "FeatureCollection"),
    ("features", Json.arr (syntheticFeatures scenario tracks)),
    ("properties", Json.obj [
      ("scenario", Json.str scenario),
      ("total_tracks", Json.int tracks.length),
      ("displayed_tracks", Json.int (syntheticFeatures scenario tracks).length)])]

/-- The synthetic-tracks route (lines 142-228). `body` is the outcome of
reading the request JSON (which may raise); `lib` is the composition of
the IBTrACS load and calc_perturbed_trajectories, given nb_synth_tracks,
and may raise. The scenario factors are computed (line 170-187) but the
result is never used. -/
def syntheticRoute (body : Except String (List (String × Json)))
    (scenario : String) (nYears : Int) (basin : String)
    (lib : String → Int → Except String (List Track)) : Json × Nat :=
  match body with
  | .error e => errResp e
  | .ok _ =>
    let _factors := scenarioFactors scenario
    match lib basin (Int.tdiv nYears 40) with
    | .error e => errResp e
    | .ok synthTracks => (syntheticResponse scenario synthTracks, 200)

/-- The wind-field route (lines 230-258): reads the request JSON (which may
raise), echoes track_id (null when absent) and resolution (10 when absent)
inside a fixed success payload, and performs no library call. -/
def windFieldRoute (body : Except String (List (String × Json))) : Json × Nat :=
  match body with
  | .error e => errResp e
  | .ok data =>
    let track_id := (assocFind data "track_id").getD Json.null
    let resolution := (assocFind data "resolution").getD (Json.int 10)
    (Json.obj [
      ("status", Json.str "success"),
      ("message", Json.str "Wind field calculation requires significant computation"),
      ("track_id", track_id),
      ("resolution", resolution)], 200)

/-- The return-periods response body on the success path (lines 319-330). -/
def returnPeriodsCore (lat lon : ℚ) (metric : String) : Json :=
  Json.obj [
    ("location", Json.obj [("lat", Json.num (some lat)), ("lon", Json.num (some lon))]),
    ("metric", Json.str metric),
    ("return_periods", Json.obj [
      ("10", Json.int 90),
      ("25", Json.int 110),
      ("50", Json.int 125),
      ("100", Json.int 140),
      ("250", Json.int 155)]),
    ("unit", Json.str (if metric = "wind_speed" then "mph" else "ft"))]

/-- The return-periods route (lines 302-334): `locParse` is the outcome of
splitting the location parameter and float-parsing both halves (line 312),
which may raise; no hazard data is consulted. -/
def returnPeriodsRoute (locParse : Except String (ℚ × ℚ)) (metric : String) : Json × Nat :=
  match locParse with
  | .error e => errResp e
  | .ok (lat, lon) => (returnPeriodsCore lat lon metric, 200)

/-- The version route (lines 36-47): reports the library version or the
uniform 500 error payload. -/
def versionRoute (lib : Except String String) : Json × Nat :=
  match lib with
  | .error e => errResp e
  | .ok v =>
    (Json.obj [
      ("climada_version", Json.str v),
      ("status", Json.str "operational"),
      ("modules", Json.arr [Json.str "hazard", Json.str "entity", Json.str "engine"])], 200)

/-- The impact route (lines 260-300): `lib` models LitPop.from_countries
followed by the exposure summary (total value, number of assets) and may
raise; `body` is the outcome of reading the request JSON. -/
def impactRoute (body : Except String (List (String × Json)))
    (country scenario : String) (lib : Except String (ℚ × Nat)) : Json × Nat :=
  match body with
  | .error e => errResp e
  | .ok _ =>
    match lib with
    | .error e => errResp e
    | .ok exp =>
      (Json.obj [
        ("country", Json.str country),
        ("scenario", Json.str scenario),
        ("exposure", Json.obj [
          ("total_value", Json.num (some exp.1)),
          ("n_assets", Json.int exp.2),
          ("currency", Json.str "USD")]),
        ("message", Json.str "Full impact calculation requires hazard data")], 200)

/-- Value of a little-endian digit list. -/
def evalDigits : List Nat → Nat
  | [] => 0
  | d :: ds => d + 10 * evalDigits ds

/-- Value of a most-significant-first digit string; left inverse of natStr. -/
def strVal (cs : List Char) : Nat := evalDigits ((cs.map digitVal).reverse)

/-- Translation of the refinement claim that the wrapper returns the
wrapped library output unmodified: every library track becomes a feature,
with none filtered out, reordered, truncated, or augmented. -/
def passthroughFeatures (basin : String) (year_min : Int) (tracks : List Track) : List Json :=
  tracks.map (trackFeature basin year_min)

/-- A concrete library track with only two points, used to compare the
code against the passthrough reading of the spec. -/
def shortTrack : Track :=
  { lat := [some 10, some 11],
    lon := [some (-80), some (-81)],
    max_sustained_wind := some [some 50, some 60],
    name := some "TWO",
    sid := "sid2",
    season := some 2015 }

/-- A concrete library track with four points, three of them with both
coordinates non-NaN. -/
def sampleTrack : Track :=
  { lat := [some 25, some 26, some 27, none],
    lon := [some (-80), some (-81), some (-82), some (-83)],
    max_sustained_wind := some [some 70, some 100, some 120, some 140],
    name := some "ALPHA",
    sid := "sidA",
    season := some 2015 }

/-! Helper lemmas about the decimal-string model. -/

lemma digitVal_digitChar (d : Nat) (h : d < 10) : digitVal (Nat.digitChar d) = d := by
  interval_cases d <;> decide

lemma digitChar_isDigit (d : Nat) (h : d < 10) : (Nat.digitChar d).isDigit = true := by
  interval_cases d <;> decide

lemma digitsAux_lt_ten : ∀ fuel n d, d ∈ digitsAux fuel n → d < 10 := by
  intro fuel
  induction fuel with
  | zero => intro n d h; simp [digitsAux] at h
  | succ fuel ih =>
    intro n d h
    by_cases hn : n = 0
    · simp [digitsAux, hn] at h
    · simp only [digitsAux, hn, if_false, List.mem_cons] at h
      rcases h with h | h
      · subst h; exact Nat.mod_lt _ (by norm_num)
      · exact ih _ _ h

lemma evalDigits_digitsAux : ∀ fuel n, n ≤ fuel → evalDigits (digitsAux fuel n) = n := by
  intro fuel
  induction fuel with
  | zero => intro n h; interval_cases n; rfl
  | succ fuel ih =>
    intro n h
    by_cases hn : n = 0
    · simp [digitsAux, hn, evalDigits]
    · have hdiv : n / 10 ≤ fuel := by
        have := Nat.div_lt_self (Nat.pos_of_ne_zero hn) (by norm_num : 1 < 10)
        omega
      simp only [digitsAux, hn, if_false, evalDigits, ih _ hdiv]
      omega

lemma strVal_natStr (n : Nat) : strVal (natStr n) = n := by
  by_cases hn : n = 0
  · subst hn; rfl
  · unfold natStr strVal
    simp only [hn, if_false]
    rw [List.map_map, List.map_reverse, List.reverse_reverse]
    have hmap : List.map (digitVal ∘ Nat.digitChar) (natDigits n) = List.map id (natDigits n) :=
      List.map_congr_left (fun d hd => digitVal_digitChar d (digitsAux_lt_ten _ _ _ hd))
    rw [hmap, List.map_id]
    exact evalDigits_digitsAux n n le_rfl

lemma natStr_injective : Function.Injective natStr :=
  Function.LeftInverse.injective strVal_natStr

lemma natStr_isDigit (n : Nat) (c : Char) (h : c ∈ natStr n) : c.isDigit = true := by
  unfold natStr at h
  by_cases hn : n = 0
  · simp [hn] at h; subst h; decide
  · simp only [hn, if_false, List.mem_map, List.mem_reverse] at h
    obtain ⟨d, hd, rfl⟩ := h
    exact digitChar_isDigit d (digitsAux_lt_ten _ _ _ hd)

lemma intStr_no_underscore (i : Int) : ('_' : Char) ∉ intStr i := by
  unfold intStr
  split_ifs with hi
  · intro h
    rcases List.mem_cons.mp h with h | h
    · exact absurd h (by decide)
    · have := natStr_isDigit _ _ h
      simp at this
  · intro h
    have := natStr_isDigit _ _ h
    simp at this

lemma intStr_injective : Function.Injective intStr := by
  intro i j h
  unfold intStr at h
  split_ifs at h with hi hj
  · injection h with h1 h2
    have := natStr_injective h2
    omega
  · exfalso
    have hm : ('-' : Char) ∈ natStr j.natAbs := h ▸ List.mem_cons_self _ _
    have := natStr_isDigit _ _ hm
    simp at this
  · exfalso
    have hm : ('-' : Char) ∈ natStr i.natAbs := h.symm ▸ List.mem_cons_self _ _
    have := natStr_isDigit _ _ hm
    simp at this
  · have := natStr_injective h
    omega

/-! Helper lemmas about splitting strings at a separator that does not
occur in the trailing parts. -/

lemma append_cons_inj {α : Type _} {c : α} :
    ∀ {x1 x2 y1 y2 : List α}, c ∉ x1 → c ∉ x2 → x1 ++ c :: y1 = x2 ++ c :: y2 →
      x1 = x2 ∧ y1 = y2 := by
  intro x1
  induction x1 with
  | nil =>
    intro x2 y1 y2 h1 h2 h
    cases x2 with
    | nil => simpa using h
    | cons b x2 =>
      exfalso
      simp only [List.nil_append, List.cons_append, List.cons.injEq] at h
      exact h2 (h.1 ▸ List.mem_cons_self _ _)
  | cons a x1 ih =>
    intro x2 y1 y2 h1 h2 h
    cases x2 with
    | nil =>
      exfalso
      simp only [List.nil_append, List.cons_append, List.cons.injEq] at h
      exact h1 (h.1.symm ▸ List.mem_cons_self _ _)
    | cons b x2 =>
      simp only [List.cons_append, List.cons.injEq] at h
      obtain ⟨rfl, h⟩ := h
      have hr := ih (fun hc => h1 (List.mem_cons_of_mem _ hc))
        (fun hc => h2 (List.mem_cons_of_mem _ hc)) h
      exact ⟨by rw [hr.1], hr.2⟩

lemma cons_append_inj_right {α : Type _} {c : α} {y1 y2 x1 x2 : List α}
    (h1 : c ∉ x1) (h2 : c ∉ x2) (h : y1 ++ c :: x1 = y2 ++ c :: x2) :
    y1 = y2 ∧ x1 = x2 := by
  have hrev : x1.reverse ++ c :: y1.reverse = x2.reverse ++ c :: y2.reverse := by
    have h2r := congrArg List.reverse h
    simpa [List.reverse_append, List.append_assoc] using h2r
  have hsplit := append_cons_inj (by simpa using h1) (by simpa using h2) hrev
  exact ⟨List.reverse_injective hsplit.2, List.reverse_injective hsplit.1⟩

lemma cacheKey_injective (b1 b2 : String) (m1 M1 m2 M2 : Int)
    (h : cacheKey b1 m1 M1 = cacheKey b2 m2 M2) : b1 = b2 ∧ m1 = m2 ∧ M1 = M2 := by
  have hl : ("tracks_".data ++ b1.data ++ ('_' :: intStr m1)) ++ ('_' :: intStr M1) =
      ("tracks_".data ++ b2.data ++ ('_' :: intStr m2)) ++ ('_' :: intStr M2) := by
    have := congrArg String.data h
    simpa [cacheKey, List.append_assoc] using this
  have step1 := cons_append_inj_right (intStr_no_underscore M1) (intStr_no_underscore M2) hl
  have step2 := cons_append_inj_right (intStr_no_underscore m1) (intStr_no_underscore m2)
    (by simpa [List.append_assoc] using step1.1)
  have hbd : b1.data = b2.data := by
    have := step2.1
    simpa using this
  refine ⟨?_, intStr_injective step2.2, intStr_injective step1.2⟩
  cases b1
  cases b2
  exact congrArg String.mk hbd

/-! Helper lemmas about the GeoJSON translation. -/

lemma range_filterMap_eq_zip {α β γ : Type _} (f : α → β → Option γ) :
    ∀ (la : List α) (lo : List β),
      ((List.range la.length).filterMap fun i =>
        match la[i]?, lo[i]? with
        | some a, some b => f a b
        | _, _ => none) =
      (la.zip lo).filterMap fun p => f p.1 p.2 := by
  intro la
  induction la with
  | nil => simp
  | cons x la ih =>
    intro lo
    cases lo with
    | nil =>
      rw [List.zip_nil_right]
      simp only [List.filterMap_nil]
      rw [List.filterMap_eq_nil_iff]
      intro i _
      rcases (x :: la)[i]? with _ | a <;> rfl
    | cons y lo =>
      rw [List.length_cons, List.range_succ_eq_map, List.zip_cons_cons,
        List.filterMap_cons, List.filterMap_cons, List.filterMap_map]
      have hcomp : ((fun i =>
          match (x :: la)[i]?, (y :: lo)[i]? with
          | some a, some b => f a b
          | _, _ => none) ∘ Nat.succ) = (fun i =>
          match la[i]?, lo[i]? with
          | some a, some b => f a b
          | _, _ => none) := by
        funext i
        simp [Function.comp, List.getElem?_cons_succ]
      rw [hcomp, ih lo]
      simp only [List.getElem?_cons_zero]

lemma validCoords_eq_zip (t : Track) :
    validCoords t = (t.lat.zip t.lon).filterMap fun p =>
      match p.1, p.2 with
      | some la, some lo => some (lo, la)
      | _, _ => none := by
  unfold validCoords
  rw [← range_filterMap_eq_zip (fun a b =>
    match a, b with
    | some la, some lo => some ((lo : ℚ), (la : ℚ))
    | _, _ => none) t.lat t.lon]
  apply List.filterMap_congr
  intro i _
  rcases t.lat[i]? with _ | (_ | a) <;> rcases t.lon[i]? with _ | (_ | b) <;> rfl

lemma filterMap_ite_eq_filter_map {α β : Type _} (p : α → Prop) [DecidablePred p] (f : α → β) :
    ∀ l : List α, (l.filterMap fun a => if p a then some (f a) else none) =
      (l.filter fun a => decide (p a)).map f := by
  intro l
  induction l with
  | nil => rfl
  | cons x l ih => by_cases h : p x <;> simp [List.filterMap_cons, List.filter_cons, h, ih]

lemma validCoords_length_le (t : Track) : (validCoords t).length ≤ t.lat.length := by
  calc (validCoords t).length ≤ (List.range t.lat.length).length :=
        List.length_filterMap_le _ _
    _ = t.lat.length := List.length_range _

lemma historicalFeatures_eq (basin : String) (ym : Int) (tracks : List Track) :
    historicalFeatures basin ym tracks =
      (tracks.filter fun t => decide (3 ≤ (validCoords t).length)).map (trackFeature basin ym) := by
  rw [← filterMap_ite_eq_filter_map]
  unfold historicalFeatures
  apply List.filterMap_congr
  intro t _
  by_cases h3 : 3 ≤ (validCoords t).length
  · have : ¬ t.lat.length < 3 := by
      have := validCoords_length_le t
      omega
    simp [this, h3]
  · simp [h3]

lemma take_min_eq_take {α : Type _} (l : List α) (n : Nat) :
    l.take (min n l.length) = l.take n := by
  rcases le_total n l.length with h | h
  · rw [min_eq_left h]
  · rw [min_eq_right h, List.take_of_length_le h, List.take_of_length_le le_rfl]

lemma syntheticFeatures_eq (scenario : String) (tracks : List Track) :
    syntheticFeatures scenario tracks =
      (((tracks.take 50).enum).filter fun p => decide (3 ≤ (validCoords p.2).length)).map
        (fun p => synthFeature scenario p.1 p.2) := by
  unfold syntheticFeatures
  rw [take_min_eq_take, ← filterMap_ite_eq_filter_map]
  apply List.filterMap_congr
  intro p _
  by_cases h3 : 3 ≤ (validCoords p.2).length
  · have : ¬ p.2.lat.length < 3 := by
      have := validCoords_length_le p.2
      omega
    simp [this, h3]
  · simp [h3]

/-- C1: the Saffir-Simpson category lookup used by the historical-tracks
endpoint is a fixed function of wind speed: for every non-NaN per-point
wind value w in knots, the category is 5 if 137 ≤ w, 4 if 113 ≤ w < 137,
3 if 96 ≤ w < 113, 2 if 83 ≤ w < 96, 1 if 64 ≤ w < 83, and 0 if w < 64;
when the track has no max_sustained_wind attribute or the value at the
point is NaN, the category is 0. -/
theorem saffir_category_lookup :
    (∀ w : ℚ, 137 ≤ w → saffirCat w = 5) ∧
    (∀ w : ℚ, 113 ≤ w → w < 137 → saffirCat w = 4) ∧
    (∀ w : ℚ, 96 ≤ w → w < 113 → saffirCat w = 3) ∧
    (∀ w : ℚ, 83 ≤ w → w < 96 → saffirCat w = 2) ∧
    (∀ w : ℚ, 64 ≤ w → w < 83 → saffirCat w = 1) ∧
    (∀ w : ℚ, w < 64 → saffirCat w = 0) ∧
    (∀ i : Nat, pointCat none i = 0) ∧
    (∀ (ws : List (Option ℚ)) (i : Nat), ws[i]? = some none → pointCat (some ws) i = 0) ∧
    (∀ (ws : List (Option ℚ)) (i : Nat) (w : ℚ), ws[i]? = some (some w) →
      pointCat (some ws) i = saffirCat w) := by
  refine ⟨?_, ?_, ?_, ?_, ?_, ?_, ?_, ?_, ?_⟩
  case _ => intro w h; unfold saffirCat; rw [if_pos h]
  case _ => intro w h1 h2; unfold saffirCat; split_ifs <;> first | rfl | linarith
  case _ => intro w h1 h2; unfold saffirCat; split_ifs <;> first | rfl | linarith
  case _ => intro w h1 h2; unfold saffirCat; split_ifs <;> first | rfl | linarith
  case _ => intro w h1 h2; unfold saffirCat; split_ifs <;> first | rfl | linarith
  case _ => intro w h; unfold saffirCat; split_ifs <;> first | rfl | linarith
  case _ => intro i; rfl
  case _ => intro ws i h; simp [pointCat, h]
  case _ => intro ws i w h; simp [pointCat, h]

/-- Witness for C1 at concrete wind speeds and track points. -/
theorem saffir_category_lookup_witness :
    saffirCat 137 = 5 ∧ saffirCat 120 = 4 ∧ saffirCat 100 = 3 ∧ saffirCat 90 = 2 ∧
    saffirCat 70 = 1 ∧ saffirCat 50 = 0 ∧ pointCat none 2 = 0 ∧
    pointCat (some [none]) 0 = 0 ∧ pointCat (some [some 140]) 0 = saffirCat 140 :=
  ⟨saffir_category_lookup.1 137 (by norm_num),
   saffir_category_lookup.2.1 120 (by norm_num) (by norm_num),
   saffir_category_lookup.2.2.1 100 (by norm_num) (by norm_num),
   saffir_category_lookup.2.2.2.1 90 (by norm_num) (by norm_num),
   saffir_category_lookup.2.2.2.2.1 70 (by norm_num) (by norm_num),
   saffir_category_lookup.2.2.2.2.2.1 50 (by norm_num),
   saffir_category_lookup.2.2.2.2.2.2.1 2,
   saffir_category_lookup.2.2.2.2.2.2.2.1 [none] 0 (by decide),
   saffir_category_lookup.2.2.2.2.2.2.2.2 [some 140] 0 140 (by decide)⟩

/-- C2: the Saffir-Simpson lookup always returns a value between 0 and 5
inclusive (also through the per-point category with a missing attribute or
NaN entries), and is monotone in the wind speed. -/
theorem saffir_category_range_mono :
    (∀ w : ℚ, 0 ≤ saffirCat w ∧ saffirCat w ≤ 5) ∧
    (∀ (mws : Option (List (Option ℚ))) (i : Nat), pointCat mws i ≤ 5) ∧
    (∀ w1 w2 : ℚ, w1 ≤ w2 → saffirCat w1 ≤ saffirCat w2) := by
  have hb : ∀ w : ℚ, saffirCat w ≤ 5 := by
    intro w; unfold saffirCat; split_ifs <;> norm_num
  refine ⟨fun w => ⟨Nat.zero_le _, hb w⟩, ?_, ?_⟩
  · intro mws i
    cases mws with
    | none => simp [pointCat]
    | some ws =>
      simp only [pointCat]
      cases h : ws[i]? with
      | none => simp
      | some ow =>
        cases ow with
        | none => simp
        | some w => simpa using hb w
  · intro w1 w2 hle
    unfold saffirCat
    split_ifs <;> linarith

/-- Witness for C2 at a concrete pair of wind speeds. -/
theorem saffir_category_range_mono_witness :
    saffirCat 70 ≤ saffirCat 100 :=
  saffir_category_range_mono.2.2 70 100 (by norm_num)

/-- C3: the return-periods endpoint is not implemented and returns
hard-coded placeholder values: for every parsed location and every metric,
the return_periods mapping is exactly 10 to 90, 25 to 110, 50 to 125,
100 to 140, 250 to 155, independent of the inputs; only the echoed
location, metric and unit fields (mph when the metric equals wind_speed,
else ft) depend on the inputs. -/
theorem return_periods_hardcoded :
    ∀ (lat lon : ℚ) (metric : String),
      (returnPeriodsCore lat lon metric).getField "return_periods" =
        some (Json.obj [
          ("10", Json.int 90),
          ("25", Json.int 110),
          ("50", Json.int 125),
          ("100", Json.int 140),
          ("250", Json.int 155)]) ∧
      (returnPeriodsCore lat lon metric).getField "unit" =
        some (Json.str (if metric = "wind_speed" then "mph" else "ft")) ∧
      (returnPeriodsCore lat lon metric).getField "location" =
        some (Json.obj [("lat", Json.num (some lat)), ("lon", Json.num (some lon))]) ∧
      (returnPeriodsCore lat lon metric).getField "metric" = some (Json.str metric) ∧
      returnPeriodsRoute (Except.ok (lat, lon)) metric = (returnPeriodsCore lat lon metric, 200) := by
  intro lat lon metric
  exact ⟨rfl, rfl, rfl, rfl, rfl⟩

/-- C4: the wind-field endpoint performs no wind-field computation: for
every request body it returns a fixed success payload that only echoes the
supplied track_id (null when absent) and resolution (10 when absent), and
its output depends on nothing else in the body. -/
theorem wind_field_placeholder :
    (∀ data : List (String × Json),
      windFieldRoute (Except.ok data) =
        (Json.obj [
          ("status", Json.str "success"),
          ("message", Json.str "Wind field calculation requires significant computation"),
          ("track_id", (assocFind data "track_id").getD Json.null),
          ("resolution", (assocFind data "resolution").getD (Json.int 10))], 200)) ∧
    (∀ data1 data2 : List (String × Json),
      assocFind data1 "track_id" = assocFind data2 "track_id" →
      assocFind data1 "resolution" = assocFind data2 "resolution" →
      windFieldRoute (Except.ok data1) = windFieldRoute (Except.ok data2)) := by
  constructor
  · intro data; rfl
  · intro data1 data2 h1 h2
    simp only [windFieldRoute, h1, h2]

/-- Witness for C4: two bodies agreeing on track_id and resolution get the
same response. -/
theorem wind_field_placeholder_witness :
    windFieldRoute (Except.ok [("track_id", Json.str "x")]) =
      windFieldRoute (Except.ok [("track_id", Json.str "x"), ("other", Json.int 1)]) :=
  wind_field_placeholder.2 [("track_id", Json.str "x")]
    [("track_id", Json.str "x"), ("other", Json.int 1)] rfl rfl

/-- C5: error handling is uniform catch-and-500: for every modelled
endpoint, an exception raised during handling (library failure or input
parsing failure alike) yields a JSON payload with the single field error
holding the exception string, with HTTP status 500; no exception type is
distinguished from any other. -/
theorem uniform_catch_and_500 :
    (∀ e, errResp e = (Json.obj [("error", Json.str e)], 500)) ∧
    (∀ e, versionRoute (Except.error e) = errResp e) ∧
    (∀ cache basinArg yMArg lib e s, parseIntArg s = Except.error e →
      historicalRoute cache basinArg (some s) yMArg lib = (errResp e, cache)) ∧
    (∀ cache basinArg lib e s1 n s2, parseIntArg s1 = Except.ok n →
      parseIntArg s2 = Except.error e →
      historicalRoute cache basinArg (some s1) (some s2) lib = (errResp e, cache)) ∧
    (∀ cache basin ym yM e, cache (cacheKey basin ym yM) = none →
      getHistoricalTracks cache basin ym yM (Except.error e) = (errResp e, cache)) ∧
    (∀ scenario nY basin lib e,
      syntheticRoute (Except.error e) scenario nY basin lib = errResp e) ∧
    (∀ body scenario nY basin e,
      syntheticRoute (Except.ok body) scenario nY basin (fun _ _ => Except.error e) = errResp e) ∧
    (∀ e, windFieldRoute (Except.error e) = errResp e) ∧
    (∀ metric e, returnPeriodsRoute (Except.error e) metric = errResp e) ∧
    (∀ country scenario lib e,
      impactRoute (Except.error e) country scenario lib = errResp e) ∧
    (∀ body country scenario e,
      impactRoute (Except.ok body) country scenario (Except.error e) = errResp e) := by
  refine ⟨fun e => rfl, fun e => rfl, ?_, ?_, ?_, fun s nY b lib e => rfl,
    fun body s nY b e => rfl, fun e => rfl, fun m e => rfl,
    fun c s lib e => rfl, fun body c s e => rfl⟩
  · intro cache basinArg yMArg lib e s h
    simp [historicalRoute, h]
  · intro cache basinArg lib e s1 n s2 h1 h2
    simp [historicalRoute, h1, h2]
  · intro cache basin ym yM e h
    simp only [getHistoricalTracks, h]

/-- Witness for C5: a failing year parse and a failing library call both
produce the single-field error payload with status 500. -/
theorem uniform_catch_and_500_witness :
    historicalRoute Cache.empty (some "NA") (some "abc") (some "2020") (Except.ok []) =
      ((Json.obj [("error", Json.str "invalid literal for int() with base 10: abc")], 500),
        Cache.empty) ∧
    historicalRoute Cache.empty (some "NA") (some "2010") (some "xyz") (Except.ok []) =
      ((Json.obj [("error", Json.str "invalid literal for int() with base 10: xyz")], 500),
        Cache.empty) ∧
    getHistoricalTracks Cache.empty "NA" 2010 2020 (Except.error "ibtracs download failed") =
      ((Json.obj [("error", Json.str "ibtracs download failed")], 500), Cache.empty) :=
  ⟨uniform_catch_and_500.2.2.1 Cache.empty (some "NA") (some "2020") (Except.ok [])
      "invalid literal for int() with base 10: abc" "abc" rfl,
   uniform_catch_and_500.2.2.2.1 Cache.empty (some "NA") (Except.ok [])
      "invalid literal for int() with base 10: xyz" "2010" 2010 "xyz" rfl rfl,
   uniform_catch_and_500.2.2.2.2.1 Cache.empty "NA" 2010 2020 "ibtracs download failed" rfl⟩

/-- C6: the repository owns a single-level, unbounded in-memory response
cache keyed by query parameters: the historical-tracks FeatureCollection is
stored under a key determined exactly by (basin, year_min, year_max); a
later request with the same three values returns the stored response
without invoking the library (here: for every library oracle, including a
failing one); requests differing in any of the three parameters use
distinct cache keys; and no entry is ever evicted or invalidated. -/
theorem cache_keyed_unbounded :
    (∀ (cache : Cache) basin ym yM lib r, cache (cacheKey basin ym yM) = some r →
      getHistoricalTracks cache basin ym yM lib = ((r, 200), cache)) ∧
    (∀ (cache : Cache) basin ym yM tracks, cache (cacheKey basin ym yM) = none →
      getHistoricalTracks cache basin ym yM (Except.ok tracks) =
        ((historicalResponse basin ym yM tracks, 200),
         cache.insert (cacheKey basin ym yM) (historicalResponse basin ym yM tracks))) ∧
    (∀ b1 m1 M1 b2 m2 M2, cacheKey b1 m1 M1 = cacheKey b2 m2 M2 →
      b1 = b2 ∧ m1 = m2 ∧ M1 = M2) ∧
    (∀ (cache : Cache) basin ym yM lib k r, cache k = some r →
      (getHistoricalTracks cache basin ym yM lib).2 k = some r) := by
  refine ⟨?_, ?_, ?_, ?_⟩
  · intro cache basin ym yM lib r h
    simp only [getHistoricalTracks, h]
  · intro cache basin ym yM tracks h
    simp only [getHistoricalTracks, h]
  · intro b1 m1 M1 b2 m2 M2 h
    exact cacheKey_injective b1 b2 m1 M1 m2 M2 h
  · intro cache basin ym yM lib k r h
    simp only [getHistoricalTracks]
    cases hc : cache (cacheKey basin ym yM) with
    | some resp => simpa using h
    | none =>
      cases lib with
      | error e => simpa using h
      | ok tracks =>
        simp only [Cache.insert]
        by_cases hk : k = cacheKey basin ym yM
        · rw [hk] at h
          rw [hc] at h
          simp at h
        · simpa [hk] using h

/-- Witness for C6: a cache hit that never consults the failing library, a
miss that stores under the computed key, key disjointness instantiated,
and an old entry surviving an unrelated request. -/
theorem cache_keyed_unbounded_witness :
    getHistoricalTracks
        (Cache.empty.insert (cacheKey "NA" 2010 2020) (Json.str "stored"))
        "NA" 2010 2020 (Except.error "never called") =
      ((Json.str "stored", 200),
        Cache.empty.insert (cacheKey "NA" 2010 2020) (Json.str "stored")) ∧
    getHistoricalTracks Cache.empty "NA" 2010 2020 (Except.ok [sampleTrack]) =
      ((historicalResponse "NA" 2010 2020 [sampleTrack], 200),
        Cache.empty.insert (cacheKey "NA" 2010 2020)
          (historicalResponse "NA" 2010 2020 [sampleTrack])) ∧
    ("NA" = "NA" ∧ (2010 : Int) = 2010 ∧ (2020 : Int) = 2020) ∧
    (getHistoricalTracks
        (Cache.empty.insert (cacheKey "NA" 2000 2005) (Json.str "old"))
        "WP" 2010 2020 (Except.ok [])).2 (cacheKey "NA" 2000 2005) = some (Json.str "old") :=
  ⟨cache_keyed_unbounded.1 _ "NA" 2010 2020 (Except.error "never called") (Json.str "stored") rfl,
   cache_keyed_unbounded.2.1 Cache.empty "NA" 2010 2020 [sampleTrack] rfl,
   cache_keyed_unbounded.2.2.1 "NA" 2010 2020 "NA" 2010 2020 rfl,
   cache_keyed_unbounded.2.2.2 _ "WP" 2010 2020 (Except.ok []) (cacheKey "NA" 2000 2005)
     (Json.str "old") rfl⟩

/-- C7 counterexample: a library output consisting of one two-point track
is not passed through unmodified; the passthrough reading of the claim
would emit one feature, the code emits none. -/
theorem passthrough_counterexample :
    (historicalFeatures "NA" 2010 [shortTrack]).length ≠
      (passthroughFeatures "NA" 2010 [shortTrack]).length := by
  decide

/-- C7 (amended): the endpoints return the library tracks passed through
the GeoJSON translation in library order with nothing augmented, except
that tracks with fewer than 3 valid points are dropped and the synthetic
endpoint considers only the first 50 tracks. -/
theorem wrapper_translation_refinement :
    (∀ basin ym tracks, historicalFeatures basin ym tracks =
      (tracks.filter fun t => decide (3 ≤ (validCoords t).length)).map (trackFeature basin ym)) ∧
    (∀ scenario tracks, syntheticFeatures scenario tracks =
      (((tracks.take 50).enum).filter fun p => decide (3 ≤ (validCoords p.2).length)).map
        (fun p => synthFeature scenario p.1 p.2)) :=
  ⟨historicalFeatures_eq, syntheticFeatures_eq⟩

/-- C8: the GeoJSON translation emits, for every list of input tracks,
exactly the tracks with at least 3 valid points, each as a LineString
whose coordinates are the [lon, lat] pairs of the points where both
coordinates are non-NaN in track order, and the count property of the
historical response equals the number of features emitted. -/
theorem geojson_translation_correct :
    (∀ basin ym tracks, historicalFeatures basin ym tracks =
      tracks.filterMap fun t =>
        if 3 ≤ (validCoords t).length then some (trackFeature basin ym t) else none) ∧
    (∀ t, validCoords t = (t.lat.zip t.lon).filterMap fun p =>
      match p.1, p.2 with
      | some la, some lo => some (lo, la)
      | _, _ => none) ∧
    (∀ basin ym t, (trackFeature basin ym t).getField "geometry" = some (geomJson t)) ∧
    (∀ t, geomJson t = Json.obj [("type", Json.str "LineString"),
      ("coordinates", Json.arr ((validCoords t).map fun p =>
        Json.arr [Json.num (some p.1), Json.num (some p.2)]))]) ∧
    (∀ basin ym yM tracks,
      (historicalResponse basin ym yM tracks).getPath ["properties", "count"] =
        some (Json.int (historicalFeatures basin ym tracks).length)) ∧
    (∀ basin ym yM tracks,
      (historicalResponse basin ym yM tracks).getField "features" =
        some (Json.arr (historicalFeatures basin ym tracks))) := by
  refine ⟨?_, validCoords_eq_zip, fun b y t => rfl, fun t => rfl,
    fun b y M ts => rfl, fun b y M ts => rfl⟩
  intro basin ym tracks
  rw [historicalFeatures_eq, ← filterMap_ite_eq_filter_map]

/-- C9: the synthetic-tracks response contains at most 50 features; only
the first min(50, number of tracks) tracks are considered for display (the
feature list depends only on the first 50 library tracks);
displayed_tracks equals the number of features emitted and total_tracks
the full number of library tracks. -/
theorem synthetic_display_bound :
    (∀ scenario tracks, (syntheticFeatures scenario tracks).length ≤ 50) ∧
    (∀ scenario tracks,
      (syntheticResponse scenario tracks).getPath ["properties", "displayed_tracks"] =
        some (Json.int (syntheticFeatures scenario tracks).length)) ∧
    (∀ scenario tracks,
      (syntheticResponse scenario tracks).getPath ["properties", "total_tracks"] =
        some (Json.int tracks.length)) ∧
    (∀ scenario tracks,
      (syntheticResponse scenario tracks).getField "features" =
        some (Json.arr (syntheticFeatures scenario tracks))) ∧
    (∀ scenario tracks1 tracks2, tracks1.take 50 = tracks2.take 50 →
      syntheticFeatures scenario tracks1 = syntheticFeatures scenario tracks2) := by
  refine ⟨?_, fun s ts => rfl, fun s ts => rfl, fun s ts => rfl, ?_⟩
  · intro scenario tracks
    rw [syntheticFeatures_eq, List.length_map]
    have h1 := List.length_filter_le (fun p => decide (3 ≤ (validCoords p.2).length))
      ((tracks.take 50).enum)
    have h2 : ((tracks.take 50).enum).length = (tracks.take 50).length := List.enum_length
    have h3 : (tracks.take 50).length ≤ 50 := by
      rw [List.length_take]
      exact min_le_left _ _
    omega
  · intro scenario t1 t2 h
    unfold syntheticFeatures
    rw [take_min_eq_take, take_min_eq_take, h]

/-- Witness for C9 on concrete track lists. -/
theorem synthetic_display_bound_witness :
    (syntheticFeatures "rcp45" [sampleTrack]).length ≤ 50 ∧
    syntheticFeatures "rcp45" [sampleTrack, shortTrack] =
      syntheticFeatures "rcp45" [sampleTrack, shortTrack] :=
  ⟨synthetic_display_bound.1 "rcp45" [sampleTrack],
   synthetic_display_bound.2.2.2.2 "rcp45" [sampleTrack, shortTrack] [sampleTrack, shortTrack] rfl⟩

/-- C10: the climate scenario parameter does not influence the generated
tracks: for the same library output, any two scenarios yield features with
identical geometries and identical displayed and total track counts; the
scenario value appears only in the echoed scenario properties. -/
theorem scenario_no_influence :
    (∀ s1 s2 tracks,
      ((syntheticFeatures s1 tracks).map fun f => f.getField "geometry") =
        ((syntheticFeatures s2 tracks).map fun f => f.getField "geometry")) ∧
    (∀ s1 s2 tracks, (syntheticFeatures s1 tracks).length = (syntheticFeatures s2 tracks).length) ∧
    (∀ s1 s2 tracks,
      (syntheticResponse s1 tracks).getPath ["properties", "total_tracks"] =
        (syntheticResponse s2 tracks).getPath ["properties", "total_tracks"]) ∧
    (∀ s1 s2 tracks,
      (syntheticResponse s1 tracks).getPath ["properties", "displayed_tracks"] =
        (syntheticResponse s2 tracks).getPath ["properties", "displayed_tracks"]) ∧
    (∀ scenario tracks f, f ∈ syntheticFeatures scenario tracks →
      f.getPath ["properties", "scenario"] = some (Json.str scenario)) ∧
    (∀ scenario tracks,
      (syntheticResponse scenario tracks).getPath ["properties", "scenario"] =
        some (Json.str scenario)) := by
  have hlen : ∀ s1 s2 tracks,
      (syntheticFeatures s1 tracks).length = (syntheticFeatures s2 tracks).length := by
    intro s1 s2 tracks
    rw [syntheticFeatures_eq, syntheticFeatures_eq, List.length_map, List.length_map]
  refine ⟨?_, hlen, fun s1 s2 ts => rfl, ?_, ?_, fun s ts => rfl⟩
  · intro s1 s2 tracks
    have hg : ∀ s : String,
        ((fun f => Json.getField f "geometry") ∘ fun p : Nat × Track => synthFeature s p.1 p.2) =
          fun p : Nat × Track => some (geomJson p.2) := by
      intro s
      funext p
      rfl
    rw [syntheticFeatures_eq, syntheticFeatures_eq, List.map_map, List.map_map, hg s1, hg s2]
  · intro s1 s2 ts
    show some (Json.int ((syntheticFeatures s1 ts).length : Int)) =
      some (Json.int ((syntheticFeatures s2 ts).length : Int))
    rw [hlen s1 s2 ts]
  · intro scenario tracks f hf
    rw [syntheticFeatures_eq] at hf
    obtain ⟨p, hp, rfl⟩ := List.mem_map.mp hf
    rfl

/-- Witness for C10: the echoed scenario property of a concrete emitted
feature. -/
theorem scenario_no_influence_witness :
    (synthFeature "rcp85" 0 sampleTrack).getPath ["properties", "scenario"] =
      some (Json.str "rcp85") :=
  scenario_no_influence.2.2.2.2.1 "rcp85" [sampleTrack] (synthFeature "rcp85" 0 sampleTrack)
    (List.mem_cons_self _ _)

end Climada
